import Mathlib

/-!
A verification development for the concurrency core of
`src/pkg/bench/benchmark.go` (package `bench` of the warp load generator).

The file shallowly embeds the two functions of that file:

* `Common.deleteAllInBucket` (lines 85-152): the concurrent deletion
  pipeline.  Each worker goroutine is embedded as a state machine
  (`runLoop`) driven by a finite trace of select-resolution events
  (`WEvent`): each event records which case of the worker's current
  `select` statement fired.  Go's channels and goroutine interleavings are
  thereby replaced by explicit nondeterminism over traces, and theorems
  quantify over all traces.  The deferred shutdown sequence
  (`close(remove)`; one receive from `errCh`; `done()`) is embedded in
  `runWorker`, and the whole call in `deleteAllInBucketModel`.
  The one-shot stall watchdog goroutine (lines 91-98) is embedded in
  `watchdogSelect`, parameterised by the time the `finished` channel is
  closed, the time the scheduler lets the goroutine's `select` resolve,
  and the pseudo-random choice Go makes when both cases are ready.

* `Common.prepareProgress` (lines 155-164): the progress reporter.
  `float64` is abstracted as `ℚ`; the optional sink channel and its
  instantaneous readiness are abstracted as `Option Bool`.
-/

/-- Embeds `minio.ObjectInfo` as delivered by `cl.ListObjects` (line 121): a
key, a version id, and a possibly-set `Err` field (line 128). -/
structure ObjectInfo where
  key : String
  versionID : String
  err : Option String
deriving DecidableEq, Repr

/-- The value sent on the `remove` channel (lines 135-138):
`minio.ObjectInfo{Key: obj.Key, VersionID: obj.VersionID}`. -/
structure ObjectIdentity where
  key : String
  versionID : String
deriving DecidableEq, Repr

/-- One resolution of a worker's blocking `select` (lines 122-147).  A trace
is the sequence of case-firings the Go runtime chose; quantifying over
traces quantifies over all channel behaviours and interleavings.

* `listObj o`  — `obj, ok := <-objects` with `ok = true` (line 124);
* `listClosed` — `obj, ok := <-objects` with `ok = false` (line 125);
* `errVal e`   — `err := <-errCh` delivered a value (lines 140, 144);
* `sendOk`     — `remove <- minio.ObjectInfo{...}` proceeded (line 135). -/
inductive WEvent
  | listObj (o : ObjectInfo)
  | listClosed
  | errVal (e : String)
  | sendOk
deriving DecidableEq, Repr

/-- The worker's control position: `outer` is the `for { select ... } }` at
lines 122-146; `inner i` is the labelled `sendNext` loop at lines 132-143,
holding the identity the worker is trying to send. -/
inductive Mode
  | outer
  | inner (i : ObjectIdentity)
deriving DecidableEq, Repr

/-- The labelled `sendNext` loop (lines 132-143) in isolation.  Given the
identity being sent and the remaining trace, it consumes events until the
send proceeds: `errVal e` fires the `err := <-errCh` case, which logs `e`
and retries the send; `sendOk` fires the send case and breaks out.  It
returns the identity actually sent, the errors logged inside the loop, and
the unconsumed remainder of the trace; `none` means the trace ended (or
held an event no case of this select can fire on) before the send
succeeded. -/
def sendNext (o : ObjectInfo) : List WEvent → Option (ObjectIdentity × List String × List WEvent)
  | [] => none
  | .sendOk :: rest => some (⟨o.key, o.versionID⟩, [], rest)
  | .errVal e :: rest =>
      match sendNext o rest with
      | some (i, l, r) => some (i, e :: l, r)
      | none => none
  | .listObj _ :: _ => none
  | .listClosed :: _ => none

/-- The worker's loop body (lines 122-147) as a trace-driven state machine.
Accumulates the identities enqueued on `remove` (`sent`) and the strings
passed to `console.Error` (`logged`).  Returns `some (sent, logged)` when
the worker executes its `return` (line 126, listing channel closed), and
`none` when the trace ends first or contains an event the current select
has no case for. -/
def runLoop : Mode → List WEvent → List ObjectIdentity → List String → Option (List ObjectIdentity × List String)
  | .outer, [], _, _ => none
  | .outer, .listClosed :: _, sent, logged => some (sent, logged)
  | .outer, .listObj o :: rest, sent, logged =>
      match o.err with
      | some e => runLoop .outer rest sent (logged ++ [e])
      | none => runLoop (.inner ⟨o.key, o.versionID⟩) rest sent logged
  | .outer, .errVal e :: rest, sent, logged => runLoop .outer rest sent (logged ++ [e])
  | .outer, .sendOk :: _, _, _ => none
  | .inner _, [], _, _ => none
  | .inner i, .sendOk :: rest, sent, logged => runLoop .outer rest (sent ++ [i]) logged
  | .inner i, .errVal e :: rest, sent, logged => runLoop (.inner i) rest sent (logged ++ [e])
  | .inner _, .listObj _ :: _, _, _ => none
  | .inner _, .listClosed :: _, _, _ => none

/-- The single receive `err := <-errCh` in the deferred shutdown (lines
111-119), applied to the residual completion stream: the list of error
values still pending on `errCh` when the worker returns (an empty list
means the channel closes without delivering another error, so the receive
yields the zero value and `err.Err == nil`).  Exactly one value is
received; it is reported iff it is a real error. -/
def shutdownRecvOnce (residual : List String) : List String :=
  match residual with
  | [] => []
  | e :: _ => [e]

/-- Modelled from the spec (§4.2 step 5): "continue draining the completion
channel until it signals closed/finished; report any residual delete
error" — every pending residual error is reported.  Stated only to be
compared against `shutdownRecvOnce`, which is what the source does. -/
def specShutdownDrainAll (residual : List String) : List String :=
  residual

/-- The observable outcome of one worker goroutine (lines 102-148). -/
structure WorkerResult where
  /-- identities enqueued on the `remove` channel, in order. -/
  sent : List ObjectIdentity
  /-- strings passed to `console.Error` inside the loop. -/
  logged : List String
  /-- whether `close(remove)` executed (line 113). -/
  removeClosed : Bool
  /-- errors reported by the deferred single receive (lines 115-118). -/
  residualLogged : List String
  /-- number of times the client release `done()` ran (line 108). -/
  released : Nat
deriving DecidableEq, Repr

/-- One worker goroutine end to end: run the loop on its trace; if (and
only if) the loop returns, the deferred statements run, in order:
`close(remove)` (line 113), one receive from `errCh` reporting a residual
error (lines 115-118), `done()` (line 108), `close(doneCh)` (line 106).
`residual` is the state of `errCh` at that point. -/
def runWorker (es : List WEvent) (residual : List String) : Option WorkerResult :=
  match runLoop .outer es [] [] with
  | none => none
  | some (sent, logged) =>
      some { sent := sent, logged := logged, removeClosed := true,
             residualLogged := shutdownRecvOnce residual, released := 1 }

/-- Lines 86-88: `if len(prefixes) == 0 { prefixes = []string{""} }`. -/
def normalizePrefixes (ps : List String) : List String :=
  if ps = [] then [""] else ps

/-- What `deleteAllInBucket` leaves behind when it returns.  The Go
function (line 85) has no return values, so nothing can be handed to the
caller: `callerError` embeds that (absent) error result and is therefore
`none` on every return path; all errors live in the workers' logs.
`finishedClosed` records that `defer close(finished)` (line 90) has run by
the time the call returns. -/
structure CallResult where
  workers : List (String × WorkerResult)
  callerError : Option String
  finishedClosed : Bool
deriving DecidableEq, Repr

/-- The whole call (lines 85-152): normalize the prefix list, run one
worker per prefix (`traces` gives each prefix's select-trace and residual
completion stream), and return once every worker has (`wg.Wait`, line
150).  `none` means some worker never returned, so the call never
returns. -/
def deleteAllInBucketModel (prefixes : List String)
    (traces : String → List WEvent × List String) : Option CallResult :=
  match (normalizePrefixes prefixes).mapM
      (fun p => (runWorker (traces p).1 (traces p).2).map fun r => (p, r)) with
  | none => none
  | some ws => some { workers := ws, callerError := none, finishedClosed := true }

/-- The cases appearing in the blocking `select` statements of
`deleteAllInBucket`, plus the case the spec discusses but that could
appear (`recvCtxDone` for `<-ctx.Done()`), for stating which waits observe
cancellation. -/
inductive SelectCase
  | recvListing
  | recvErrCh
  | sendRemove
  | recvCtxDone
  | recvTimer
  | recvFinished
deriving DecidableEq, Repr

/-- The cases of the outer select (lines 123-146): receive from `objects`,
receive from `errCh`. -/
def outerSelectCases : List SelectCase :=
  [.recvListing, .recvErrCh]

/-- The cases of the inner `sendNext` select (lines 134-142): send on
`remove`, receive from `errCh`. -/
def innerSelectCases : List SelectCase :=
  [.sendRemove, .recvErrCh]

/-- The cases of the watchdog goroutine's select (lines 92-97): receive
from `time.After(time.Minute)`, receive from `finished`. -/
def watchdogSelectCases : List SelectCase :=
  [.recvTimer, .recvFinished]

/-- The watchdog goroutine (lines 91-98).  Its body is a single `select`
(not a loop): the timer case dumps one goroutine snapshot and then the
goroutine body ends; the `finished` case returns.  Times are in seconds;
the timer fires at 60.  `finishClose` is when `close(finished)` runs
(i.e. when `deleteAllInBucket` returns), `wake` is when the scheduler lets
the select resolve, and `pickTimer` is Go's pseudo-random choice when both
cases are ready at `wake`. -/
inductive WatchdogOutcome
  | blocked
  | returned
  | snapshotThenExit (t : Nat)
deriving DecidableEq, Repr

def watchdogSelect (finishClose wake : Nat) (pickTimer : Bool) : WatchdogOutcome :=
  if 60 ≤ wake then
    if finishClose ≤ wake then
      if pickTimer then .snapshotThenExit wake else .returned
    else .snapshotThenExit wake
  else if finishClose ≤ wake then .returned
  else .blocked

/-- Number of `pprof` snapshots an outcome contains. -/
def snapshotCount : WatchdogOutcome → Nat
  | .snapshotThenExit _ => 1
  | _ => 0

/-- The times at which the watchdog dumps a snapshot, as a list. -/
def watchdogSnapshotList (finishClose wake : Nat) (pickTimer : Bool) : List Nat :=
  match watchdogSelect finishClose wake pickTimer with
  | .snapshotThenExit t => [t]
  | _ => []

/-- Modelled from the spec: "emits such stack/goroutine snapshots
periodically while the stall persists" — one snapshot per elapsed minute
until the finished signal arrives at `stallEnd`.  Stated only to be
compared against the source's one-shot watchdog. -/
def specWatchdogSnapshots (stallEnd : Nat) : List Nat :=
  (List.range (stallEnd / 60)).map fun i => 60 * (i + 1)

/-- The outcome of one `prepareProgress` call (lines 155-164). -/
inductive Delivery
  | delivered (v : ℚ)
  | dropped
deriving DecidableEq, Repr

/-- Embeds `Common.prepareProgress` (lines 155-164).  `sink` is `none` when
`c.PrepareProgress == nil` (line 156); otherwise `some ready`, where
`ready` says whether a receiver is ready at the instant of the `select`,
so the non-default case (line 161) can fire.  The clamp (line 159) runs
before the select.  `float64` is abstracted as `ℚ`. -/
def prepareProgress (sink : Option Bool) (progress : ℚ) : Delivery :=
  match sink with
  | none => .dropped
  | some ready =>
      let p := max 0 (min 1 progress)
      if ready then .delivered p else .dropped

/-- Number of send attempts a `prepareProgress` call makes: zero when no
sink is configured (early return, line 157), otherwise exactly one — the
single `select` with a `default` case (lines 160-163) never retries. -/
def sendAttempts (sink : Option Bool) : Nat :=
  match sink with
  | none => 0
  | some _ => 1

/-- Helper: a successful `sendNext` run consumed exactly the logged errors
followed by the successful send, and sent the listed identity. -/
theorem sendNext_sound (o : ObjectInfo) :
    ∀ (es : List WEvent) (i : ObjectIdentity) (l : List String) (r : List WEvent),
      sendNext o es = some (i, l, r) →
        i = ⟨o.key, o.versionID⟩ ∧ es = l.map WEvent.errVal ++ WEvent.sendOk :: r := by
  intro es
  induction es with
  | nil => intro i l r h; simp [sendNext] at h
  | cons hd tl ih =>
    intro i l r h
    cases hd with
    | sendOk =>
      simp [sendNext] at h
      obtain ⟨hi, hl, hr⟩ := h
      subst hi hl hr
      simp
    | errVal e =>
      rw [sendNext] at h
      cases h' : sendNext o tl with
      | none => rw [h'] at h; simp at h
      | some p =>
        obtain ⟨i', l', r'⟩ := p
        rw [h'] at h
        simp at h
        obtain ⟨hi, hl, hr⟩ := h
        obtain ⟨hi', htl⟩ := ih i' l' r' h'
        subst hi hl hr hi' htl
        simp
    | listObj o' => simp [sendNext] at h
    | listClosed => simp [sendNext] at h

/-- C1: in the `sendNext` loop, a send that cannot proceed yields to an
available completion (logging it) and the send is retried; the loop exits
only by a successful send of the listed identity, after logging exactly
the completions serviced before it.  Part one: any run of serviced
completions followed by a ready send succeeds, logging them all.  Part
two: every exit of the loop is of that shape. -/
theorem inner_send_loop_exits_only_by_send :
    (∀ (o : ObjectInfo) (errs : List String) (rest : List WEvent),
      sendNext o (errs.map WEvent.errVal ++ WEvent.sendOk :: rest) =
        some (⟨o.key, o.versionID⟩, errs, rest)) ∧
    (∀ (o : ObjectInfo) (es : List WEvent) (i : ObjectIdentity) (l : List String) (r : List WEvent),
      sendNext o es = some (i, l, r) →
        i = ⟨o.key, o.versionID⟩ ∧ es = l.map WEvent.errVal ++ WEvent.sendOk :: r) := by
  constructor
  · intro o errs rest
    induction errs with
    | nil => rfl
    | cons e tl ih => simp [sendNext, ih]
  · exact sendNext_sound

/-- C1 witness: one blocked send, one serviced completion, then success. -/
theorem inner_send_loop_witness :
    sendNext ⟨"obj1", "ver1", none⟩ [WEvent.errVal "delete failed", WEvent.sendOk] =
      some (⟨"obj1", "ver1"⟩, ["delete failed"], []) ∧
    ([WEvent.errVal "delete failed", WEvent.sendOk] : List WEvent) =
      (["delete failed"].map WEvent.errVal ++ WEvent.sendOk :: []) :=
  ⟨rfl,
   (inner_send_loop_exits_only_by_send.2 ⟨"obj1", "ver1", none⟩
      [WEvent.errVal "delete failed", WEvent.sendOk] ⟨"obj1", "ver1"⟩
      ["delete failed"] [] rfl).2⟩

/-- C2: with a configured, ready sink, `prepareProgress v` delivers
exactly `max 0 (min 1 v)`, and every delivered sample lies in `[0, 1]`. -/
theorem prepareProgress_clamps_to_unit_interval :
    (∀ v : ℚ, prepareProgress (some true) v = Delivery.delivered (max 0 (min 1 v))) ∧
    (∀ (sink : Option Bool) (v w : ℚ),
      prepareProgress sink v = Delivery.delivered w → 0 ≤ w ∧ w ≤ 1) := by
  constructor
  · intro v; rfl
  · intro sink v w h
    cases sink with
    | none => simp [prepareProgress] at h
    | some ready =>
      cases ready with
      | false => simp [prepareProgress] at h
      | true =>
        simp [prepareProgress] at h
        subst h
        exact ⟨le_max_left 0 _, max_le (by norm_num) (min_le_left 1 v)⟩

/-- C2 witness: input `3/2` is delivered as `1`, which lies in `[0, 1]`. -/
theorem prepareProgress_clamp_witness :
    prepareProgress (some true) (3 / 2 : ℚ) = Delivery.delivered 1 ∧
    (0 : ℚ) ≤ 1 ∧ (1 : ℚ) ≤ 1 := by
  have hmin : min (1 : ℚ) (3 / 2) = 1 := min_eq_left (by norm_num)
  have hmax : max (0 : ℚ) 1 = 1 := max_eq_right (by norm_num)
  have hd : prepareProgress (some true) (3 / 2 : ℚ) = Delivery.delivered 1 := by
    simp [prepareProgress, hmin, hmax]
  exact ⟨hd, prepareProgress_clamps_to_unit_interval.2 (some true) (3 / 2) 1 hd⟩

/-- C3: calling the pipeline with zero prefixes is identical to calling it
with the single empty prefix: the empty list is normalized to `[""]`
before any worker runs, so the two calls have the same result for every
behaviour of the workers. -/
theorem deleteAll_no_prefixes_eq_empty_prefix :
    ∀ traces : String → List WEvent × List String,
      deleteAllInBucketModel [] traces = deleteAllInBucketModel [""] traces := by
  intro traces
  rfl

/-- C4: `prepareProgress` never blocks: it is a total function of the sink
state; with no sink configured it drops the sample having made zero send
attempts, with a sink that is not ready it drops the sample, and no call
makes more than one send attempt (no retry, no queueing). -/
theorem prepareProgress_never_blocks :
    (∀ v : ℚ, prepareProgress none v = Delivery.dropped) ∧
    (∀ v : ℚ, prepareProgress (some false) v = Delivery.dropped) ∧
    sendAttempts none = 0 ∧
    (∀ sink : Option Bool, sendAttempts sink ≤ 1) := by
  refine ⟨fun _ => rfl, fun _ => rfl, rfl, fun sink => ?_⟩
  cases sink <;> simp [sendAttempts]

/-- C9: every worker that returns has run its deferred release exactly
once — `done()` is called exactly once on every exit path of the worker,
for every trace and every residual completion stream. -/
theorem worker_releases_exactly_once :
    ∀ (es : List WEvent) (residual : List String) (r : WorkerResult),
      runWorker es residual = some r → r.released = 1 := by
  intro es residual r h
  simp only [runWorker] at h
  cases hl : runLoop Mode.outer es [] [] with
  | none => rw [hl] at h; simp at h
  | some p =>
    obtain ⟨sent, logged⟩ := p
    rw [hl] at h
    simp at h
    subst h
    rfl

/-- C9 witness: a worker whose listing closes immediately releases its
client handle exactly once. -/
theorem worker_releases_exactly_once_witness :
    runWorker [WEvent.listClosed] [] =
      some { sent := [], logged := [], removeClosed := true, residualLogged := [], released := 1 } ∧
    ({ sent := [], logged := [], removeClosed := true, residualLogged := [],
       released := 1 } : WorkerResult).released = 1 :=
  ⟨rfl, worker_releases_exactly_once [WEvent.listClosed] [] _ rfl⟩

/-- Helper: a worker returns only when the listing channel closes — every
trace on which `runLoop` exits contains a `listClosed` event, whatever
mode the worker is in. -/
theorem runLoop_exit_requires_listing_close :
    ∀ (es : List WEvent) (mode : Mode) (sent : List ObjectIdentity)
      (logged : List String) (out : List ObjectIdentity × List String),
      runLoop mode es sent logged = some out → WEvent.listClosed ∈ es := by
  intro es
  induction es with
  | nil => intro mode sent logged out h; cases mode <;> simp [runLoop] at h
  | cons hd tl ih =>
    intro mode sent logged out h
    cases mode with
    | outer =>
      cases hd with
      | listClosed => exact List.mem_cons_self _ _
      | listObj o =>
        simp only [runLoop] at h
        cases ho : o.err with
        | some e => rw [ho] at h; exact List.mem_cons_of_mem _ (ih _ _ _ _ h)
        | none => rw [ho] at h; exact List.mem_cons_of_mem _ (ih _ _ _ _ h)
      | errVal e =>
        simp only [runLoop] at h
        exact List.mem_cons_of_mem _ (ih _ _ _ _ h)
      | sendOk => simp [runLoop] at h
    | inner i =>
      cases hd with
      | sendOk =>
        simp only [runLoop] at h
        exact List.mem_cons_of_mem _ (ih _ _ _ _ h)
      | errVal e =>
        simp only [runLoop] at h
        exact List.mem_cons_of_mem _ (ih _ _ _ _ h)
      | listObj o => simp [runLoop] at h
      | listClosed => simp [runLoop] at h

/-- C5 counterexample: neither the inner `sendNext` select nor the outer
dispatch select of a deletion worker has a `<-ctx.Done()` case, so not
every blocking wait of the pipeline observes the cancellation signal
directly. -/
theorem ctx_done_not_in_pipeline_selects :
    SelectCase.recvCtxDone ∉ innerSelectCases ∧
    SelectCase.recvCtxDone ∉ outerSelectCases := by
  decide

/-- C5 amended: no blocking select of the deletion workers contains the
context's done channel; a worker's waits service only the listing channel,
the delivery queue and the completion channel, and the worker unwinds only
when the listing channel closes — which is how cancellation reaches it,
since the backend closes the listing stream when the context is
cancelled. -/
theorem cancellation_observed_only_via_channel_close :
    SelectCase.recvCtxDone ∉ innerSelectCases ∧
    SelectCase.recvCtxDone ∉ outerSelectCases ∧
    (∀ (mode : Mode) (es : List WEvent) (sent : List ObjectIdentity)
      (logged : List String) (out : List ObjectIdentity × List String),
      runLoop mode es sent logged = some out → WEvent.listClosed ∈ es) :=
  ⟨by decide, by decide, fun mode es sent logged out h =>
    runLoop_exit_requires_listing_close es mode sent logged out h⟩

/-- C5 witness: a worker whose listing closes at once exits, and its trace
contains the listing-closed event. -/
theorem cancellation_observed_only_via_channel_close_witness :
    runLoop Mode.outer [WEvent.listClosed] [] [] = some ([], []) ∧
    WEvent.listClosed ∈ [WEvent.listClosed] :=
  ⟨rfl, cancellation_observed_only_via_channel_close.2.2 Mode.outer
    [WEvent.listClosed] [] [] ([], []) rfl⟩

/-- A worker trace carrying a connection-level backend failure on the
completion channel, after which the backend closes the listing stream. -/
def fatalTrace : String → List WEvent × List String :=
  fun _ => ([WEvent.errVal "connection refused", WEvent.listClosed], [])

/-- C6 counterexample: a connection-level backend failure is logged to the
diagnostic sink, and the call returns with no caller-visible error — the
Go function has no return value, so full backend unavailability is not
surfaced to the caller of `deleteAllInBucket`. -/
theorem fatal_error_not_caller_visible :
    deleteAllInBucketModel ["p"] fatalTrace =
      some { workers := [("p", { sent := [], logged := ["connection refused"],
                                 removeClosed := true, residualLogged := [], released := 1 })],
             callerError := none, finishedClosed := true } := by
  rfl

/-- C6 amended: every error the pipeline observes, including backend fatal
errors on the completion channel, goes to the diagnostic sink
(`console.Error`); the enclosing call returns no error to its caller on
any input. -/
theorem errors_reported_only_to_diagnostic_sink :
    (∀ (prefixes : List String) (traces : String → List WEvent × List String) (r : CallResult),
      deleteAllInBucketModel prefixes traces = some r → r.callerError = none) ∧
    (∀ (e : String) (es : List WEvent) (sent : List ObjectIdentity) (logged : List String),
      runLoop Mode.outer (WEvent.errVal e :: es) sent logged =
        runLoop Mode.outer es sent (logged ++ [e])) := by
  constructor
  · intro prefixes traces r h
    simp only [deleteAllInBucketModel] at h
    split at h
    · simp at h
    · simp at h
      subst h
      rfl
  · intro e es sent logged
    rfl

/-- C6 amended witness: on the fatal-error trace the call returns with
`callerError = none`. -/
theorem errors_reported_only_to_diagnostic_sink_witness :
    deleteAllInBucketModel ["p"] fatalTrace =
      some { workers := [("p", { sent := [], logged := ["connection refused"],
                                 removeClosed := true, residualLogged := [], released := 1 })],
             callerError := none, finishedClosed := true } ∧
    ({ workers := [("p", { sent := [], logged := ["connection refused"],
                           removeClosed := true, residualLogged := [], released := 1 })],
       callerError := none, finishedClosed := true } : CallResult).callerError = none :=
  ⟨rfl, errors_reported_only_to_diagnostic_sink.1 ["p"] fatalTrace _ rfl⟩

/-- C7 counterexample: with two residual delete errors pending on the
completion channel, the deferred shutdown's single receive reports only
the first; it does not drain the channel until it closes, contrary to the
claim (`specShutdownDrainAll` states the claimed behaviour). -/
theorem shutdown_single_receive_counterexample :
    shutdownRecvOnce ["delete failed: a", "delete failed: b"] = ["delete failed: a"] ∧
    specShutdownDrainAll ["delete failed: a", "delete failed: b"] =
      ["delete failed: a", "delete failed: b"] ∧
    shutdownRecvOnce ["delete failed: a", "delete failed: b"] ≠
      specShutdownDrainAll ["delete failed: a", "delete failed: b"] := by
  refine ⟨rfl, rfl, ?_⟩
  decide

/-- C7 amended: on listing exhaustion the worker closes the delivery queue
and then performs exactly one receive on the completion channel — waiting
for the channel to close if nothing is pending — reporting the received
error if non-nil; residual errors beyond the first are not drained. -/
theorem shutdown_closes_queue_then_single_receive :
    ∀ (es : List WEvent) (residual : List String) (r : WorkerResult),
      runWorker es residual = some r →
        r.removeClosed = true ∧ r.residualLogged = residual.take 1 := by
  intro es residual r h
  simp only [runWorker] at h
  cases hl : runLoop Mode.outer es [] [] with
  | none => rw [hl] at h; simp at h
  | some p =>
    obtain ⟨sent, logged⟩ := p
    rw [hl] at h
    simp at h
    subst h
    refine ⟨rfl, ?_⟩
    show shutdownRecvOnce residual = residual.take 1
    cases residual <;> rfl

/-- C7 witness: a worker with two pending residual errors closes the queue
and reports exactly the first of them. -/
theorem shutdown_single_receive_witness :
    runWorker [WEvent.listClosed] ["delete failed: a", "delete failed: b"] =
      some { sent := [], logged := [], removeClosed := true,
             residualLogged := ["delete failed: a"], released := 1 } ∧
    (({ sent := [], logged := [], removeClosed := true,
        residualLogged := ["delete failed: a"], released := 1 } : WorkerResult).removeClosed = true ∧
      ({ sent := [], logged := [], removeClosed := true,
         residualLogged := ["delete failed: a"], released := 1 } : WorkerResult).residualLogged =
        (["delete failed: a", "delete failed: b"] : List String).take 1) :=
  ⟨rfl, shutdown_closes_queue_then_single_receive [WEvent.listClosed]
    ["delete failed: a", "delete failed: b"] _ rfl⟩

/-- C8 counterexample: for a stall that persists ten minutes (finished
signal at 600s) with the watchdog scheduled when its timer fires, the
watchdog dumps exactly one snapshot, at the one-minute mark, and then its
goroutine exits — it does not emit snapshots periodically while the stall
persists (`specWatchdogSnapshots` states the claimed periodic
behaviour). -/
theorem watchdog_not_periodic_counterexample :
    watchdogSnapshotList 600 60 true = [60] ∧
    specWatchdogSnapshots 600 = [60, 120, 180, 240, 300, 360, 420, 480, 540, 600] ∧
    watchdogSnapshotList 600 60 true ≠ specWatchdogSnapshots 600 := by
  refine ⟨rfl, by decide, by decide⟩

/-- C8 amended: the stall watchdog dumps at most one diagnostic snapshot
per call — if the finished signal has not arrived when it is scheduled at
or after the one-minute mark it dumps a single snapshot and its goroutine
then exits; it performs no cancellation, its only possible outcomes being
to keep blocking, to return silently, or to snapshot once and exit. -/
theorem watchdog_single_snapshot_then_exit :
    ∀ (finishClose wake : Nat) (pickTimer : Bool),
      snapshotCount (watchdogSelect finishClose wake pickTimer) ≤ 1 ∧
      (60 ≤ wake → wake < finishClose →
        watchdogSelect finishClose wake pickTimer = WatchdogOutcome.snapshotThenExit wake) := by
  intro f w p
  constructor
  · cases watchdogSelect f w p <;> simp [snapshotCount]
  · intro h60 hwf
    have hnf : ¬ (f ≤ w) := by omega
    simp [watchdogSelect, h60, hnf]

/-- C8 witness: at a ten-minute stall, scheduled at the one-minute mark,
the watchdog snapshots once and exits. -/
theorem watchdog_single_snapshot_then_exit_witness :
    snapshotCount (watchdogSelect 600 60 true) ≤ 1 ∧
    (60 ≤ 60 ∧ 60 < 600) ∧
    watchdogSelect 600 60 true = WatchdogOutcome.snapshotThenExit 60 :=
  ⟨(watchdog_single_snapshot_then_exit 600 60 true).1, ⟨by decide, by decide⟩,
   (watchdog_single_snapshot_then_exit 600 60 true).2 (by decide) (by decide)⟩

/-- C10 counterexample: the timer fires at 60s, the call returns (closing
`finished`) at 70s, the scheduler runs the watchdog's select at 80s with
both cases ready, and Go's pseudo-random choice picks the timer case: a
snapshot is emitted at 80s, after the call has returned at 70s. -/
theorem snapshot_after_return_counterexample :
    watchdogSelect 70 80 true = WatchdogOutcome.snapshotThenExit 80 ∧ 70 < 80 := by
  exact ⟨by decide, by decide⟩

/-- Worker traces in which each listing closes immediately. -/
def closedListingTrace : String → List WEvent × List String :=
  fun _ => ([WEvent.listClosed], [])

/-- C10 amended: the watchdog emits at most one snapshot per call; when the
call returns the `finished` channel has been closed, and once it is closed
the watchdog's select resolves at its next scheduling point, so the
watchdog terminates — but when the one-minute timer fired before the
watchdog observed `finished`, its select may still pick the timer case and
emit its single snapshot after the call has returned. -/
theorem watchdog_terminates_after_return :
    (∀ (finishClose wake : Nat) (pickTimer : Bool),
      snapshotCount (watchdogSelect finishClose wake pickTimer) ≤ 1 ∧
      (finishClose ≤ wake →
        watchdogSelect finishClose wake pickTimer ≠ WatchdogOutcome.blocked)) ∧
    (∀ (prefixes : List String) (traces : String → List WEvent × List String) (r : CallResult),
      deleteAllInBucketModel prefixes traces = some r → r.finishedClosed = true) := by
  constructor
  · intro f w p
    constructor
    · cases watchdogSelect f w p <;> simp [snapshotCount]
    · intro hfw
      unfold watchdogSelect
      split_ifs <;> simp_all
  · intro prefixes traces r h
    simp only [deleteAllInBucketModel] at h
    split at h
    · simp at h
    · simp at h
      subst h
      rfl

/-- C10 witness: a resolved watchdog is not blocked, and a returned call
has closed `finished`. -/
theorem watchdog_terminates_after_return_witness :
    watchdogSelect 70 80 true ≠ WatchdogOutcome.blocked ∧
    deleteAllInBucketModel [] closedListingTrace =
      some { workers := [("", { sent := [], logged := [], removeClosed := true,
                                residualLogged := [], released := 1 })],
             callerError := none, finishedClosed := true } ∧
    ({ workers := [("", { sent := [], logged := [], removeClosed := true,
                          residualLogged := [], released := 1 })],
       callerError := none, finishedClosed := true } : CallResult).finishedClosed = true :=
  ⟨(watchdog_terminates_after_return.1 70 80 true).2 (by decide), rfl,
   watchdog_terminates_after_return.2 [] closedListingTrace _ rfl⟩
